import Mathlib

/-!
Shallow embedding of `src/server/server.c` from the of-config repository:
the process-entry bootstrap of the OF-CONFIG NETCONF server.  External
library calls (libnetconf, libc) are modelled by their outcomes, supplied
as inputs; `main` is embedded as a function from those outcomes to the
trace of calls it performs plus its result.
-/

namespace OfConfig

/-- Numeric C constants used by `server.c` (values from the C standard
library and libnetconf headers). -/
def EXIT_SUCCESS : Int := 0

/-- Constant `EXIT_FAILURE` from stdlib. -/
def EXIT_FAILURE : Int := 1

/-- Enum `NC_VERB_ERROR` of libnetconf's `NC_VERB_LEVEL`. -/
def NC_VERB_ERROR : Int := 0

/-- Enum `NC_VERB_WARNING` of libnetconf's `NC_VERB_LEVEL`. -/
def NC_VERB_WARNING : Int := 1

/-- Enum `NC_VERB_VERBOSE` of libnetconf's `NC_VERB_LEVEL`. -/
def NC_VERB_VERBOSE : Int := 2

/-- Enum `NC_VERB_DEBUG` of libnetconf's `NC_VERB_LEVEL`, the largest
member of the enumeration. -/
def NC_VERB_DEBUG : Int := 3

/-- Signal number `SIGINT` (Linux). -/
def SIGINT : Int := 2

/-- Signal number `SIGQUIT` (Linux). -/
def SIGQUIT : Int := 3

/-- Signal number `SIGABRT` (Linux). -/
def SIGABRT : Int := 6

/-- Signal number `SIGKILL` (Linux). -/
def SIGKILL : Int := 9

/-- Signal number `SIGTERM` (Linux). -/
def SIGTERM : Int := 15

/-- Syslog option `LOG_PID`. -/
def LOG_PID : Int := 1

/-- Syslog option `LOG_PERROR`: additionally log to stderr. -/
def LOG_PERROR : Int := 32

/-- Syslog facility `LOG_DAEMON`. -/
def LOG_DAEMON : Int := 24

/-- Macro `CONFDIR` from `server.c`. -/
def CONFDIR : String := "/etc/ofconfig/"

/-- Path argument of both `ncds_add_model` calls (the string literal
`CONFDIR "/ietf-netconf-server/ietf-x509-cert-to-name.yin"` after C
string-literal concatenation). -/
def certToNamePath : String := CONFDIR ++ "/ietf-netconf-server/ietf-x509-cert-to-name.yin"

/-- Path argument of the `ncds_new_transapi_static` call. -/
def serverYinPath : String := CONFDIR ++ "/ietf-netconf-server/ietf-netconf-server.yin"

/-- Path argument of the `ncds_file_set_path` call. -/
def datastoreXmlPath : String := CONFDIR ++ "/ietf-netconf-server/datastore.xml"

/-- Characters the C `isspace` classifier accepts (the set skipped by
`atoi` before the number). -/
def isSpaceC (c : Char) : Bool :=
  c = ' ' || c = '\t' || c = '\n' || c = '\x0b' || c = '\x0c' || c = '\x0d'

/-- Accumulate the leading decimal digits of a character list, as the loop
inside C `atoi` does; stops at the first non-digit. -/
def atoiDigits : List Char → Int → Int
  | [], acc => acc
  | c :: cs, acc =>
    if c.isDigit then atoiDigits cs (acc * 10 + (Int.ofNat c.toNat - Int.ofNat '0'.toNat))
    else acc

/-- Model of C `atoi`: skip leading whitespace, read an optional sign,
then the longest prefix of decimal digits; an empty digit prefix yields 0
(overflow is not modelled, as no claim depends on it). -/
def atoi (s : String) : Int :=
  match s.data.dropWhile isSpaceC with
  | '-' :: rest => - atoiDigits rest 0
  | '+' :: rest => atoiDigits rest 0
  | rest => atoiDigits rest 0

/-- Embedding of the verbosity normalization in `main` (server.c lines
159-165): the value handed to `nc_verbosity` after clamping into the
`NC_VERB_LEVEL` enum range. -/
def normalizeVerbosity (verbose : Int) : Int :=
  if verbose < NC_VERB_ERROR then NC_VERB_ERROR
  else if verbose > NC_VERB_DEBUG then NC_VERB_DEBUG
  else verbose

/-- Initial value of `verbose` in `main` (server.c lines 117-123): the
environment variable's `atoi` value when present, else `NC_VERB_ERROR`. -/
def initialVerbose : Option String → Int
  | none => NC_VERB_ERROR
  | some s => atoi s

/-- One recognized unit of the `getopt_long` stream: the options the
`OPTSTRING "fhv:"` / `longopts` table can yield, plus the default case
for an unrecognized flag. -/
inductive CmdOpt where
  | foreground
  | help
  | verbose (arg : String)
  | unrecognized
deriving DecidableEq, Repr

/-- Outcome of the option-parsing `while` loop in `main`: either
`print_usage` ran (which calls `exit(0)`), or parsing finished with the
final `daemonize` and `verbose` values. -/
inductive ParseOutcome where
  | usageExit
  | proceed (daemonize : Int) (verbose : Int)
deriving DecidableEq, Repr

/-- Embedding of the option-parsing loop (server.c lines 126-142): state
is `(daemonize, verbose)`; case `f` clears `daemonize`, case `h` and the
default case call `print_usage` (exiting), case `v` overwrites `verbose`
with `atoi(optarg)`. -/
def parseLoop : Int → Int → List CmdOpt → ParseOutcome
  | daemonize, verbose, [] => ParseOutcome.proceed daemonize verbose
  | _, verbose, CmdOpt.foreground :: rest => parseLoop 0 verbose rest
  | _, _, CmdOpt.help :: _ => ParseOutcome.usageExit
  | daemonize, _, CmdOpt.verbose a :: rest => parseLoop daemonize (atoi a) rest
  | _, _, CmdOpt.unrecognized :: _ => ParseOutcome.usageExit

/-- The `-v` arguments of an option list, in order. -/
def vArgs (opts : List CmdOpt) : List String :=
  opts.filterMap fun o =>
    match o with
    | CmdOpt.verbose a => some a
    | _ => none

/-- Observable calls `main` makes, in program order. -/
inductive Event where
  | printUsage
  | sigactionCall (sig : Int)
  | callbackPrint
  | ncVerbosity (level : Int)
  | daemonCall (nochdir : Int) (noclose : Int)
  | openlogCall (ident : String) (options : Int) (facility : Int)
  | logError (msg : String)
  | ncInit
  | addModel (path : String)
  | newTransapiStatic (path : String)
  | fileSetPath (path : String)
  | featureEnable (modelName : String) (feature : String)
  | ncdsInitCall
  | consolidateCall
  | deviceInitCall
  | verboseMsg (msg : String)
  | ncClose
deriving DecidableEq, Repr

/-- How a run of `main` ends: an `exit`/`return` with a code, or reaching
the poll loop (`while (!mainloop)`) after a fully successful bootstrap. -/
inductive MainResult where
  | exited (code : Int)
  | loopEntered
deriving DecidableEq, Repr

/-- Outcomes of the external calls `main` performs, supplied as inputs to
the embedding.  Return values of calls whose results `server.c` discards
are included so that the embedding can state that they are discarded. -/
structure ExtEnv where
  daemonRet : Int
  ncInitRet : Int
  addModelRet1 : Int
  newTransapiNull : Bool
  fileSetPathRet : Int
  addModelRet2 : Int
  featureSshRet : Int
  featureInboundSshRet : Int
  ncdsInitRet : Int
  consolidateRet : Int
  deviceInitRet : Int
deriving DecidableEq, Repr

/-- Events of the signal-handler installation and verbosity setup
(server.c lines 144-165), shared by every post-parse path. -/
def setupEvents (verbose : Int) : List Event :=
  [Event.sigactionCall SIGINT, Event.sigactionCall SIGQUIT,
   Event.sigactionCall SIGABRT, Event.sigactionCall SIGTERM,
   Event.sigactionCall SIGKILL, Event.callbackPrint,
   Event.ncVerbosity (normalizeVerbosity verbose)]

/-- Events of the successful daemonization branch (server.c lines
168-176): with `daemonize == 1`, the `daemon(0, 0)` call followed by
`openlog` without `LOG_PERROR`; otherwise only `openlog` with
`LOG_PERROR` (so messages are copied to the controlling terminal). -/
def daemonEvents (daemonize : Int) : List Event :=
  if daemonize = 1 then
    [Event.daemonCall 0 0,
     Event.openlogCall "netopeer-server" LOG_PID LOG_DAEMON]
  else
    [Event.openlogCall "netopeer-server" (LOG_PID + LOG_PERROR) LOG_DAEMON]

/-- Embedding of `main` after option parsing (server.c lines 144-247):
daemonization, syslog setup, and the fail-fast library bootstrap
sequence, producing the trace of calls and how the run ends.  Each
`goto cleanup` is the append of `Event.ncClose`; the `nc_init` and
`daemon` failures `return` directly without reaching `cleanup`. -/
def bootstrapRun (daemonize : Int) (verbose : Int) (ext : ExtEnv) : List Event × MainResult :=
  let t0 := setupEvents verbose
  if daemonize = 1 ∧ ext.daemonRet ≠ 0 then
    (t0 ++ [Event.daemonCall 0 0, Event.logError "Going to background failed"],
     MainResult.exited EXIT_FAILURE)
  else
    let t1 := t0 ++ daemonEvents daemonize
    if ext.ncInitRet < 0 then
      (t1 ++ [Event.ncInit, Event.logError "libnetconf initialization failed."],
       MainResult.exited EXIT_FAILURE)
    else
      let t2 := t1 ++ [Event.ncInit, Event.addModel certToNamePath,
                       Event.newTransapiStatic serverYinPath]
      if ext.newTransapiNull then
        (t2 ++ [Event.logError "Creating ietf-netconf-server datastore failed.",
                Event.ncClose],
         MainResult.exited EXIT_FAILURE)
      else
        let t3 := t2 ++ [Event.fileSetPath datastoreXmlPath,
                         Event.addModel certToNamePath,
                         Event.featureEnable "ietf-netconf-server" "ssh",
                         Event.featureEnable "ietf-netconf-server" "inbound-ssh",
                         Event.ncdsInitCall]
        if ext.ncdsInitRet < 0 then
          (t3 ++ [Event.logError "Initiating ietf-netconf-server datastore failed.",
                  Event.ncClose],
           MainResult.exited EXIT_FAILURE)
        else
          let t4 := t3 ++ [Event.consolidateCall]
          if ext.consolidateRet ≠ 0 then
            (t4 ++ [Event.logError "Consoidating data models failed.", Event.ncClose],
             MainResult.exited EXIT_FAILURE)
          else
            let t5 := t4 ++ [Event.deviceInitCall]
            if ext.deviceInitRet ≠ 0 then
              (t5 ++ [Event.logError "Initiating ietf-netconf-server module failed.",
                      Event.ncClose],
               MainResult.exited EXIT_FAILURE)
            else
              (t5 ++ [Event.verboseMsg "OF-CONFIG server successfully initialized."],
               MainResult.loopEntered)

/-- Embedding of `main` (server.c lines 89-247) up to the poll loop:
read the environment verbosity default, run the option loop (whose
usage/exit path prints usage and exits 0), then the bootstrap. -/
def runMain (envVerbose : Option String) (opts : List CmdOpt) (ext : ExtEnv) :
    List Event × MainResult :=
  match parseLoop 1 (initialVerbose envVerbose) opts with
  | ParseOutcome.usageExit => ([Event.printUsage], MainResult.exited 0)
  | ParseOutcome.proceed daemonize verbose => bootstrapRun daemonize verbose ext

/-- What one invocation of the signal handler does: return to the
interrupted program with a new `mainloop` value, or call `exit`. -/
inductive HandlerOutcome where
  | returns (mainloop : Int)
  | exits (code : Int)
deriving DecidableEq, Repr

/-- The termination-class signals the `switch` in `signal_handler`
recognises (server.c lines 67-72). -/
def handledSignal (sig : Int) : Bool :=
  sig = SIGINT || sig = SIGTERM || sig = SIGQUIT || sig = SIGABRT || sig = SIGKILL

/-- Embedding of `signal_handler` (server.c lines 62-87) as a function of
the signal number and the current `mainloop` flag. -/
def signal_handler (sig : Int) (mainloop : Int) : HandlerOutcome :=
  if handledSignal sig then
    if mainloop = 0 then HandlerOutcome.returns 1
    else HandlerOutcome.exits EXIT_FAILURE
  else HandlerOutcome.exits EXIT_FAILURE

/-- Embedding of the poll loop `while (!mainloop) sleep(1);` (server.c
lines 234-240).  `flag k` is the value of `mainloop` observed by the
k-th check; iteration k checks the flag first, and only when it is still
unset performs the k-th one-second sleep and re-checks.  The result is
the index of the exiting check — equivalently the number of one-second
sleeps performed — or `none` when the fuel ran out before the flag was
seen set. -/
def pollLoopRun (flag : Nat → Bool) : Nat → Nat → Option Nat
  | 0, _ => none
  | fuel + 1, k => if flag k then some k else pollLoopRun flag fuel (k + 1)

/-- Final value of the `verbose` variable after the option loop: each
`-v` argument overwrites it. -/
def finalVerbose (v : Int) (opts : List CmdOpt) : Int :=
  (vArgs opts).foldl (fun _ a => atoi a) v

lemma parseLoop_usage_of_help :
    ∀ (opts : List CmdOpt) (d v : Int), CmdOpt.help ∈ opts →
      parseLoop d v opts = ParseOutcome.usageExit := by
  intro opts
  induction opts with
  | nil => intro d v h; cases h
  | cons o rest ih =>
    intro d v h
    cases o with
    | foreground =>
      have hr : CmdOpt.help ∈ rest := by
        rcases List.mem_cons.mp h with h1 | h1
        · cases h1
        · exact h1
      simpa [parseLoop] using ih 0 v hr
    | help => simp [parseLoop]
    | verbose a =>
      have hr : CmdOpt.help ∈ rest := by
        rcases List.mem_cons.mp h with h1 | h1
        · cases h1
        · exact h1
      simpa [parseLoop] using ih d (atoi a) hr
    | unrecognized => simp [parseLoop]

lemma parseLoop_proceed_eq :
    ∀ (opts : List CmdOpt) (d v : Int), CmdOpt.help ∉ opts →
      CmdOpt.unrecognized ∉ opts →
      parseLoop d v opts =
        ParseOutcome.proceed (if CmdOpt.foreground ∈ opts then 0 else d)
          (finalVerbose v opts) := by
  intro opts
  induction opts with
  | nil => intro d v _ _; simp [parseLoop, finalVerbose, vArgs]
  | cons o rest ih =>
    intro d v hh hu
    have hh' : CmdOpt.help ∉ rest := fun h => hh (List.mem_cons_of_mem _ h)
    have hu' : CmdOpt.unrecognized ∉ rest := fun h => hu (List.mem_cons_of_mem _ h)
    cases o with
    | foreground =>
      rw [parseLoop, ih 0 v hh' hu']
      simp [finalVerbose, vArgs]
    | help => exact absurd (List.mem_cons_self _ _) hh
    | verbose a =>
      rw [parseLoop, ih d (atoi a) hh' hu']
      simp [finalVerbose, vArgs]
    | unrecognized => exact absurd (List.mem_cons_self _ _) hu

lemma finalVerbose_of_no_v (opts : List CmdOpt) (v : Int) (h : vArgs opts = []) :
    finalVerbose v opts = v := by
  simp [finalVerbose, h]

lemma foldl_overwrite_last :
    ∀ (l : List String) (v : Int), l ≠ [] →
      l.foldl (fun _ a => atoi a) v = atoi (l.getLastD "") := by
  intro l
  induction l with
  | nil => intro v h; exact absurd rfl h
  | cons a t ih =>
    intro v _
    cases t with
    | nil => simp [List.getLastD]
    | cons b t' =>
      rw [List.foldl_cons, ih (atoi a) (by simp)]
      simp [List.getLastD]

lemma normalizeVerbosity_bounds (v : Int) :
    NC_VERB_ERROR ≤ normalizeVerbosity v ∧ normalizeVerbosity v ≤ NC_VERB_DEBUG := by
  simp only [normalizeVerbosity, NC_VERB_ERROR, NC_VERB_DEBUG]
  split_ifs <;> omega

@[simp] lemma ncVerbosity_not_mem_daemonEvents (d lvl : Int) :
    Event.ncVerbosity lvl ∉ daemonEvents d := by
  unfold daemonEvents; split <;> simp

@[simp] lemma ncInit_not_mem_daemonEvents (d : Int) :
    Event.ncInit ∉ daemonEvents d := by
  unfold daemonEvents; split <;> simp

@[simp] lemma addModel_not_mem_daemonEvents (d : Int) (p : String) :
    Event.addModel p ∉ daemonEvents d := by
  unfold daemonEvents; split <;> simp

@[simp] lemma newTransapiStatic_not_mem_daemonEvents (d : Int) (p : String) :
    Event.newTransapiStatic p ∉ daemonEvents d := by
  unfold daemonEvents; split <;> simp

@[simp] lemma fileSetPath_not_mem_daemonEvents (d : Int) (p : String) :
    Event.fileSetPath p ∉ daemonEvents d := by
  unfold daemonEvents; split <;> simp

@[simp] lemma featureEnable_not_mem_daemonEvents (d : Int) (m f : String) :
    Event.featureEnable m f ∉ daemonEvents d := by
  unfold daemonEvents; split <;> simp

@[simp] lemma ncdsInitCall_not_mem_daemonEvents (d : Int) :
    Event.ncdsInitCall ∉ daemonEvents d := by
  unfold daemonEvents; split <;> simp

@[simp] lemma consolidateCall_not_mem_daemonEvents (d : Int) :
    Event.consolidateCall ∉ daemonEvents d := by
  unfold daemonEvents; split <;> simp

@[simp] lemma deviceInitCall_not_mem_daemonEvents (d : Int) :
    Event.deviceInitCall ∉ daemonEvents d := by
  unfold daemonEvents; split <;> simp

@[simp] lemma logError_not_mem_daemonEvents (d : Int) (msg : String) :
    Event.logError msg ∉ daemonEvents d := by
  unfold daemonEvents; split <;> simp

@[simp] lemma ncClose_not_mem_daemonEvents (d : Int) :
    Event.ncClose ∉ daemonEvents d := by
  unfold daemonEvents; split <;> simp

@[simp] lemma verboseMsg_not_mem_daemonEvents (d : Int) (msg : String) :
    Event.verboseMsg msg ∉ daemonEvents d := by
  unfold daemonEvents; split <;> simp

lemma ncVerbosity_mem_bootstrapRun (d v : Int) (ext : ExtEnv) (lvl : Int)
    (h : Event.ncVerbosity lvl ∈ (bootstrapRun d v ext).1) :
    lvl = normalizeVerbosity v := by
  unfold bootstrapRun at h
  simp only [setupEvents] at h
  split_ifs at h <;> simp_all

lemma parseLoop_proceed_verbose :
    ∀ (opts : List CmdOpt) (d v d' v' : Int), vArgs opts = [] →
      parseLoop d v opts = ParseOutcome.proceed d' v' → v' = v := by
  intro opts
  induction opts with
  | nil =>
    intro d v d' v' _ h
    simp only [parseLoop, ParseOutcome.proceed.injEq] at h
    exact h.2.symm
  | cons o rest ih =>
    intro d v d' v' hv h
    cases o with
    | foreground =>
      exact ih 0 v d' v' (by simpa [vArgs] using hv) (by simpa [parseLoop] using h)
    | help => simp [parseLoop] at h
    | verbose a => simp [vArgs] at hv
    | unrecognized => simp [parseLoop] at h

/-- Sample outcome environment in which every external call succeeds. -/
def okEnv : ExtEnv := ⟨0, 0, 0, false, 0, 0, 0, 0, 0, 0, 0⟩

/-- C2: in the signal handler, a handled termination signal (SIGINT,
SIGTERM, SIGQUIT, SIGABRT, SIGKILL) arriving while the shutdown flag is 0
makes the handler return with the flag set to 1; a handled signal
arriving while the flag is already 1 makes the handler exit the process
with failure status; any other signal makes the handler exit with failure
regardless of the flag. -/
theorem C2_signal_handler_policy (sig : Int) :
    (handledSignal sig = true →
      signal_handler sig 0 = HandlerOutcome.returns 1 ∧
      signal_handler sig 1 = HandlerOutcome.exits EXIT_FAILURE) ∧
    (handledSignal sig = false →
      ∀ m : Int, signal_handler sig m = HandlerOutcome.exits EXIT_FAILURE) := by
  refine ⟨fun h => ⟨?_, ?_⟩, fun h m => ?_⟩ <;> simp [signal_handler, h]

/-- Witness for C2 at SIGINT (handled) and signal 7 (unhandled). -/
theorem C2_signal_handler_policy_witness :
    (signal_handler SIGINT 0 = HandlerOutcome.returns 1 ∧
     signal_handler SIGINT 1 = HandlerOutcome.exits EXIT_FAILURE) ∧
    signal_handler 7 5 = HandlerOutcome.exits EXIT_FAILURE :=
  ⟨(C2_signal_handler_policy SIGINT).1 (by decide),
   (C2_signal_handler_policy 7).2 (by decide) 5⟩

/-- C4: whatever the environment and the recognized flags, any verbosity
level that `main` hands to `nc_verbosity` lies in the libnetconf range
from `NC_VERB_ERROR` to `NC_VERB_DEBUG`, even when the `-v` number lies
outside it. -/
theorem C4_verbosity_clamped (envVerbose : Option String) (opts : List CmdOpt)
    (ext : ExtEnv) (lvl : Int)
    (h : Event.ncVerbosity lvl ∈ (runMain envVerbose opts ext).1) :
    NC_VERB_ERROR ≤ lvl ∧ lvl ≤ NC_VERB_DEBUG := by
  unfold runMain at h
  cases hp : parseLoop 1 (initialVerbose envVerbose) opts with
  | usageExit => rw [hp] at h; simp at h
  | proceed d v =>
    rw [hp] at h
    rw [ncVerbosity_mem_bootstrapRun d v ext lvl h]
    exact normalizeVerbosity_bounds v

/-- Witness for C4: a run with `-v 999` still sets a level in range. -/
theorem C4_verbosity_clamped_witness :
    NC_VERB_ERROR ≤ (3 : Int) ∧ (3 : Int) ≤ NC_VERB_DEBUG :=
  C4_verbosity_clamped none [CmdOpt.verbose "999"] okEnv 3 (by decide)

/-- C6: with `-h` anywhere among the flags, `main` prints usage and exits
with code 0, and no bootstrap call (in particular `nc_init`) appears in
its trace. -/
theorem C6_help_exits_before_bootstrap (envVerbose : Option String)
    (opts : List CmdOpt) (ext : ExtEnv) (h : CmdOpt.help ∈ opts) :
    runMain envVerbose opts ext = ([Event.printUsage], MainResult.exited 0) ∧
    Event.ncInit ∉ (runMain envVerbose opts ext).1 := by
  have hu := parseLoop_usage_of_help opts 1 (initialVerbose envVerbose) h
  refine ⟨?_, ?_⟩ <;> simp [runMain, hu]

/-- Witness for C6 with arguments `-v 2 -h -f`. -/
theorem C6_help_exits_before_bootstrap_witness :
    runMain (some "1") [CmdOpt.verbose "2", CmdOpt.help, CmdOpt.foreground] okEnv =
        ([Event.printUsage], MainResult.exited 0) ∧
    Event.ncInit ∉
      (runMain (some "1") [CmdOpt.verbose "2", CmdOpt.help, CmdOpt.foreground] okEnv).1 :=
  C6_help_exits_before_bootstrap (some "1")
    [CmdOpt.verbose "2", CmdOpt.help, CmdOpt.foreground] okEnv (by decide)

/-- C8: when the environment variable supplies the verbosity (any string,
numeric or not) and no `-v` flag is given, the level `main` hands to
`nc_verbosity` is the clamp of `atoi` of that string and lies in the
range from `NC_VERB_ERROR` to `NC_VERB_DEBUG`. -/
theorem C8_env_verbosity_clamped (s : String) (opts : List CmdOpt) (ext : ExtEnv)
    (hnov : vArgs opts = []) (lvl : Int)
    (h : Event.ncVerbosity lvl ∈ (runMain (some s) opts ext).1) :
    lvl = normalizeVerbosity (atoi s) ∧
    NC_VERB_ERROR ≤ lvl ∧ lvl ≤ NC_VERB_DEBUG := by
  unfold runMain at h
  cases hp : parseLoop 1 (initialVerbose (some s)) opts with
  | usageExit => rw [hp] at h; simp at h
  | proceed d v =>
    rw [hp] at h
    have hv : v = atoi s := parseLoop_proceed_verbose opts 1 (initialVerbose (some s)) d v hnov hp
    have hl := ncVerbosity_mem_bootstrapRun d v ext lvl h
    refine ⟨by rw [hl, hv], ?_⟩
    rw [hl]
    exact normalizeVerbosity_bounds v

/-- Witness for C8 on the non-numeric environment value "garbage". -/
theorem C8_env_verbosity_clamped_witness :
    (0 : Int) = normalizeVerbosity (atoi "garbage") ∧
    NC_VERB_ERROR ≤ (0 : Int) ∧ (0 : Int) ≤ NC_VERB_DEBUG :=
  C8_env_verbosity_clamped "garbage" [] okEnv (by decide) 0 (by decide)

/-- C10: when at least one `-v` flag is given (and neither `-h` nor an
unrecognized flag aborts parsing), the parse result does not depend on
the environment-derived initial verbosity at all, and the verbosity it
carries is `atoi` of the LAST `-v` argument. -/
theorem C10_last_v_overrides (opts : List CmdOpt) (d v0 v1 : Int)
    (hh : CmdOpt.help ∉ opts) (hu : CmdOpt.unrecognized ∉ opts)
    (hv : vArgs opts ≠ []) :
    parseLoop d v0 opts = parseLoop d v1 opts ∧
    parseLoop d v0 opts =
      ParseOutcome.proceed (if CmdOpt.foreground ∈ opts then 0 else d)
        (atoi ((vArgs opts).getLastD "")) := by
  have e0 := parseLoop_proceed_eq opts d v0 hh hu
  have e1 := parseLoop_proceed_eq opts d v1 hh hu
  simp only [finalVerbose] at e0 e1
  rw [foldl_overwrite_last _ _ hv] at e0 e1
  exact ⟨e0.trans e1.symm, e0⟩

/-- Witness for C10 with flags `-v 2 -v 9`, two unrelated environment
defaults 0 and 7: the last `-v` wins. -/
theorem C10_last_v_overrides_witness :
    (parseLoop 1 0 [CmdOpt.verbose "2", CmdOpt.verbose "9"] =
       parseLoop 1 7 [CmdOpt.verbose "2", CmdOpt.verbose "9"]) ∧
    parseLoop 1 0 [CmdOpt.verbose "2", CmdOpt.verbose "9"] =
      ParseOutcome.proceed
        (if CmdOpt.foreground ∈ [CmdOpt.verbose "2", CmdOpt.verbose "9"] then 0 else 1)
        (atoi ((vArgs [CmdOpt.verbose "2", CmdOpt.verbose "9"]).getLastD "")) :=
  C10_last_v_overrides [CmdOpt.verbose "2", CmdOpt.verbose "9"] 1 0 7
    (by decide) (by decide) (by decide)

/-- Sample outcome environment in which `ncds_new_transapi_static`
returns NULL and every other call succeeds. -/
def transapiFailEnv : ExtEnv := ⟨0, 0, 0, true, 0, 0, 0, 0, 0, 0, 0⟩

/-- C5: when the bootstrap reaches `ncds_new_transapi_static` (daemon and
`nc_init` did not fail) and that call returns NULL, `main` logs the
datastore-creation error and exits with failure without ever calling
`ncds_init`, `ncds_consolidate` or `ncds_device_init`. -/
theorem C5_datastore_construction_failure (d v : Int) (ext : ExtEnv)
    (hd : ¬(d = 1 ∧ ext.daemonRet ≠ 0)) (hn : 0 ≤ ext.ncInitRet)
    (hnull : ext.newTransapiNull = true) :
    Event.newTransapiStatic serverYinPath ∈ (bootstrapRun d v ext).1 ∧
    (bootstrapRun d v ext).2 = MainResult.exited EXIT_FAILURE ∧
    Event.logError "Creating ietf-netconf-server datastore failed." ∈
      (bootstrapRun d v ext).1 ∧
    Event.ncdsInitCall ∉ (bootstrapRun d v ext).1 ∧
    Event.consolidateCall ∉ (bootstrapRun d v ext).1 ∧
    Event.deviceInitCall ∉ (bootstrapRun d v ext).1 := by
  have hn' : (ext.ncInitRet < 0) = False := eq_false (by omega)
  by_cases hd1 : d = 1
  · have hdr : ext.daemonRet = 0 := by
      by_contra hne
      exact hd ⟨hd1, hne⟩
    simp [bootstrapRun, setupEvents, hd1, hdr, hn', hnull]
  · simp [bootstrapRun, setupEvents, hd1, hn', hnull]

/-- Witness for C5: a foreground run in which datastore construction
fails. -/
theorem C5_datastore_construction_failure_witness :
    Event.newTransapiStatic serverYinPath ∈ (bootstrapRun 0 0 transapiFailEnv).1 ∧
    (bootstrapRun 0 0 transapiFailEnv).2 = MainResult.exited EXIT_FAILURE ∧
    Event.logError "Creating ietf-netconf-server datastore failed." ∈
      (bootstrapRun 0 0 transapiFailEnv).1 ∧
    Event.ncdsInitCall ∉ (bootstrapRun 0 0 transapiFailEnv).1 ∧
    Event.consolidateCall ∉ (bootstrapRun 0 0 transapiFailEnv).1 ∧
    Event.deviceInitCall ∉ (bootstrapRun 0 0 transapiFailEnv).1 :=
  C5_datastore_construction_failure 0 0 transapiFailEnv (by decide) (by decide) (by decide)

lemma pollLoopRun_finds (flag : Nat → Bool) :
    ∀ (fuel d k : Nat), d < fuel → flag (k + d) = true →
      ∃ m, k ≤ m ∧ m ≤ k + d ∧ pollLoopRun flag fuel k = some m ∧
        flag m = true ∧ ∀ i, k ≤ i → i < m → flag i = false := by
  intro fuel
  induction fuel with
  | zero => intro d k hd _; exact absurd hd (Nat.not_lt_zero d)
  | succ fuel ih =>
    intro d k hd hf
    by_cases hk : flag k = true
    · exact ⟨k, Nat.le_refl k, Nat.le_add_right k d, by simp [pollLoopRun, hk], hk,
        fun i h1 h2 => absurd h1 (by omega)⟩
    · have hk' : flag k = false := by
        cases h : flag k
        · rfl
        · exact absurd h hk
      cases d with
      | zero =>
        rw [Nat.add_zero] at hf
        rw [hf] at hk'
        cases hk'
      | succ d' =>
        have hf' : flag (k + 1 + d') = true := by
          have he : k + 1 + d' = k + (d' + 1) := by omega
          rw [he]; exact hf
        obtain ⟨m, h1, h2, h3, h4, h5⟩ := ih d' (k + 1) (by omega) hf'
        refine ⟨m, by omega, by omega, ?_, h4, ?_⟩
        · rw [pollLoopRun, if_neg (by simp [hk'])]
          exact h3
        · intro i hi1 hi2
          rcases Nat.lt_or_ge i (k + 1) with hik | hik
          · have : i = k := by omega
            rw [this]; exact hk'
          · exact h5 i hik hi2

/-- C7: the poll loop checks the `mainloop` flag before every sleep, so
once the flag is set (true at check index `t`) the loop exits at the
first check that observes it: the run returns `some m` with `m ≤ t`, the
exiting check `m` saw the flag set, and every one of the `m` sleeps the
loop performed was preceded by a check that saw the flag unset — no
sleep begins after the flag has been observed set. -/
theorem C7_poll_loop_exit (flag : Nat → Bool) (t : Nat) (ht : flag t = true) :
    ∃ m, m ≤ t ∧ pollLoopRun flag (t + 1) 0 = some m ∧ flag m = true ∧
      ∀ i, i < m → flag i = false := by
  obtain ⟨m, _, h2, h3, h4, h5⟩ :=
    pollLoopRun_finds flag (t + 1) t 0 (by omega) (by simpa using ht)
  exact ⟨m, by omega, h3, h4, fun i hi => h5 i (Nat.zero_le i) hi⟩

/-- Witness for C7: the flag becomes set at check index 2, and the loop
exits there after exactly two sleeps. -/
theorem C7_poll_loop_exit_witness :
    ∃ m, m ≤ 5 ∧ pollLoopRun (fun i => decide (2 ≤ i)) (5 + 1) 0 = some m ∧
      (fun i => decide (2 ≤ i)) m = true ∧
      ∀ i, i < m → (fun i => decide (2 ≤ i)) i = false :=
  C7_poll_loop_exit (fun i => decide (2 ≤ i)) 5 (by decide)

/-- Trace common to every run that reached `ncds_init`: setup, the
daemonization branch, and the bootstrap calls up to and including
`ncds_init`. -/
def reachedDatastoreEvents (d v : Int) : List Event :=
  setupEvents v ++ daemonEvents d ++
  [Event.ncInit, Event.addModel certToNamePath, Event.newTransapiStatic serverYinPath,
   Event.fileSetPath datastoreXmlPath, Event.addModel certToNamePath,
   Event.featureEnable "ietf-netconf-server" "ssh",
   Event.featureEnable "ietf-netconf-server" "inbound-ssh", Event.ncdsInitCall]

lemma bootstrapRun_cases (d v : Int) (ext : ExtEnv) :
    (d = 1 ∧ ext.daemonRet ≠ 0 ∧
      bootstrapRun d v ext =
        (setupEvents v ++ [Event.daemonCall 0 0, Event.logError "Going to background failed"],
         MainResult.exited EXIT_FAILURE)) ∨
    (¬(d = 1 ∧ ext.daemonRet ≠ 0) ∧ ext.ncInitRet < 0 ∧
      bootstrapRun d v ext =
        (setupEvents v ++ daemonEvents d ++
           [Event.ncInit, Event.logError "libnetconf initialization failed."],
         MainResult.exited EXIT_FAILURE)) ∨
    (¬(d = 1 ∧ ext.daemonRet ≠ 0) ∧ 0 ≤ ext.ncInitRet ∧ ext.newTransapiNull = true ∧
      bootstrapRun d v ext =
        (setupEvents v ++ daemonEvents d ++
           [Event.ncInit, Event.addModel certToNamePath,
            Event.newTransapiStatic serverYinPath,
            Event.logError "Creating ietf-netconf-server datastore failed.", Event.ncClose],
         MainResult.exited EXIT_FAILURE)) ∨
    (¬(d = 1 ∧ ext.daemonRet ≠ 0) ∧ 0 ≤ ext.ncInitRet ∧ ext.newTransapiNull = false ∧
      ext.ncdsInitRet < 0 ∧
      bootstrapRun d v ext =
        (reachedDatastoreEvents d v ++
           [Event.logError "Initiating ietf-netconf-server datastore failed.", Event.ncClose],
         MainResult.exited EXIT_FAILURE)) ∨
    (¬(d = 1 ∧ ext.daemonRet ≠ 0) ∧ 0 ≤ ext.ncInitRet ∧ ext.newTransapiNull = false ∧
      0 ≤ ext.ncdsInitRet ∧ ext.consolidateRet ≠ 0 ∧
      bootstrapRun d v ext =
        (reachedDatastoreEvents d v ++
           [Event.consolidateCall, Event.logError "Consoidating data models failed.",
            Event.ncClose],
         MainResult.exited EXIT_FAILURE)) ∨
    (¬(d = 1 ∧ ext.daemonRet ≠ 0) ∧ 0 ≤ ext.ncInitRet ∧ ext.newTransapiNull = false ∧
      0 ≤ ext.ncdsInitRet ∧ ext.consolidateRet = 0 ∧ ext.deviceInitRet ≠ 0 ∧
      bootstrapRun d v ext =
        (reachedDatastoreEvents d v ++
           [Event.consolidateCall, Event.deviceInitCall,
            Event.logError "Initiating ietf-netconf-server module failed.", Event.ncClose],
         MainResult.exited EXIT_FAILURE)) ∨
    (¬(d = 1 ∧ ext.daemonRet ≠ 0) ∧ 0 ≤ ext.ncInitRet ∧ ext.newTransapiNull = false ∧
      0 ≤ ext.ncdsInitRet ∧ ext.consolidateRet = 0 ∧ ext.deviceInitRet = 0 ∧
      bootstrapRun d v ext =
        (reachedDatastoreEvents d v ++
           [Event.consolidateCall, Event.deviceInitCall,
            Event.verboseMsg "OF-CONFIG server successfully initialized."],
         MainResult.loopEntered)) := by
  by_cases h1 : d = 1 ∧ ext.daemonRet ≠ 0
  · exact Or.inl ⟨h1.1, h1.2, by simp [bootstrapRun, h1]⟩
  right
  by_cases h2 : ext.ncInitRet < 0
  · exact Or.inl ⟨h1, h2, by simp [bootstrapRun, h1, h2]⟩
  right
  have h2' : 0 ≤ ext.ncInitRet := by omega
  by_cases h3 : ext.newTransapiNull = true
  · exact Or.inl ⟨h1, h2', h3, by simp [bootstrapRun, h1, h2, h3]⟩
  right
  have h3' : ext.newTransapiNull = false := by
    cases h : ext.newTransapiNull
    · rfl
    · exact absurd h h3
  by_cases h4 : ext.ncdsInitRet < 0
  · exact Or.inl ⟨h1, h2', h3', h4,
      by simp [bootstrapRun, reachedDatastoreEvents, h1, h2, h3', h4]⟩
  right
  have h4' : 0 ≤ ext.ncdsInitRet := by omega
  by_cases h5 : ext.consolidateRet = 0
  · by_cases h6 : ext.deviceInitRet = 0
    · exact Or.inr (Or.inr ⟨h1, h2', h3', h4', h5, h6,
        by simp [bootstrapRun, reachedDatastoreEvents, h1, h2, h3', h4, h5, h6]⟩)
    · exact Or.inr (Or.inl ⟨h1, h2', h3', h4', h5, h6,
        by simp [bootstrapRun, reachedDatastoreEvents, h1, h2, h3', h4, h5, h6]⟩)
  · exact Or.inl ⟨h1, h2', h3', h4', h5,
      by simp [bootstrapRun, reachedDatastoreEvents, h1, h2, h3', h4, h5]⟩

/-- Predicate: the event list contains no `ncds_add_model` call. -/
def noAddModel (l : List Event) : Prop := ∀ p : String, Event.addModel p ∉ l

/-- C9: whenever the bootstrap reaches datastore construction (daemon and
`nc_init` succeeded, construction returned non-NULL), the trace contains
exactly two `ncds_add_model` calls, both with the identical
certificate-to-name YIN path: one immediately before
`ncds_new_transapi_static` and one after `ncds_file_set_path`; moreover
the embedding discards both calls' return values, so replacing them by
any other values changes neither the trace nor how the run ends. -/
theorem C9_cert_model_registered_twice (d v : Int) (ext : ExtEnv)
    (hd : ¬(d = 1 ∧ ext.daemonRet ≠ 0)) (hn : 0 ≤ ext.ncInitRet)
    (hnotnull : ext.newTransapiNull = false) :
    (∃ pre post,
      (bootstrapRun d v ext).1 =
        pre ++ Event.addModel certToNamePath ::
          Event.newTransapiStatic serverYinPath ::
          Event.fileSetPath datastoreXmlPath ::
          Event.addModel certToNamePath :: post ∧
      noAddModel pre ∧ noAddModel post) ∧
    (∀ (dr ni fs f1 f2 ndi co de r1 r2 r1' r2' : Int) (tn : Bool),
      bootstrapRun d v (ExtEnv.mk dr ni r1 tn fs r2 f1 f2 ndi co de) =
        bootstrapRun d v (ExtEnv.mk dr ni r1' tn fs r2' f1 f2 ndi co de)) := by
  constructor
  · rcases bootstrapRun_cases d v ext with
      ⟨hd1, hdr, -⟩ | ⟨-, h2, -⟩ | ⟨-, -, h3, -⟩ | ⟨-, -, -, -, heq⟩ |
      ⟨-, -, -, -, -, heq⟩ | ⟨-, -, -, -, -, -, heq⟩ | ⟨-, -, -, -, -, -, heq⟩
    · exact absurd ⟨hd1, hdr⟩ hd
    · exact absurd h2 (by omega)
    · simp [hnotnull] at h3
    · refine ⟨setupEvents v ++ daemonEvents d ++ [Event.ncInit],
        [Event.featureEnable "ietf-netconf-server" "ssh",
         Event.featureEnable "ietf-netconf-server" "inbound-ssh", Event.ncdsInitCall,
         Event.logError "Initiating ietf-netconf-server datastore failed.", Event.ncClose],
        ?_, ?_, ?_⟩
      · simp [heq, reachedDatastoreEvents]
      · intro p; simp [setupEvents]
      · intro p; simp
    · refine ⟨setupEvents v ++ daemonEvents d ++ [Event.ncInit],
        [Event.featureEnable "ietf-netconf-server" "ssh",
         Event.featureEnable "ietf-netconf-server" "inbound-ssh", Event.ncdsInitCall,
         Event.consolidateCall, Event.logError "Consoidating data models failed.",
         Event.ncClose],
        ?_, ?_, ?_⟩
      · simp [heq, reachedDatastoreEvents]
      · intro p; simp [setupEvents]
      · intro p; simp
    · refine ⟨setupEvents v ++ daemonEvents d ++ [Event.ncInit],
        [Event.featureEnable "ietf-netconf-server" "ssh",
         Event.featureEnable "ietf-netconf-server" "inbound-ssh", Event.ncdsInitCall,
         Event.consolidateCall, Event.deviceInitCall,
         Event.logError "Initiating ietf-netconf-server module failed.", Event.ncClose],
        ?_, ?_, ?_⟩
      · simp [heq, reachedDatastoreEvents]
      · intro p; simp [setupEvents]
      · intro p; simp
    · refine ⟨setupEvents v ++ daemonEvents d ++ [Event.ncInit],
        [Event.featureEnable "ietf-netconf-server" "ssh",
         Event.featureEnable "ietf-netconf-server" "inbound-ssh", Event.ncdsInitCall,
         Event.consolidateCall, Event.deviceInitCall,
         Event.verboseMsg "OF-CONFIG server successfully initialized."],
        ?_, ?_, ?_⟩
      · simp [heq, reachedDatastoreEvents]
      · intro p; simp [setupEvents]
      · intro p; simp
  · intro dr ni fs f1 f2 ndi co de r1 r2 r1' r2' tn
    rfl

/-- Witness for C9 at a concrete successful foreground run. -/
theorem C9_cert_model_registered_twice_witness :
    (∃ pre post,
      (bootstrapRun 0 0 okEnv).1 =
        pre ++ Event.addModel certToNamePath ::
          Event.newTransapiStatic serverYinPath ::
          Event.fileSetPath datastoreXmlPath ::
          Event.addModel certToNamePath :: post ∧
      noAddModel pre ∧ noAddModel post) ∧
    (∀ (dr ni fs f1 f2 ndi co de r1 r2 r1' r2' : Int) (tn : Bool),
      bootstrapRun 0 0 (ExtEnv.mk dr ni r1 tn fs r2 f1 f2 ndi co de) =
        bootstrapRun 0 0 (ExtEnv.mk dr ni r1' tn fs r2' f1 f2 ndi co de)) :=
  C9_cert_model_registered_twice 0 0 okEnv (by decide) (by decide) (by decide)

/-- Selector for the bootstrap-step calls of the sequence in §4.4 of the
spec: library init, model registration, datastore construction, backing
file path, feature enabling, datastore init, consolidation, activation. -/
def isStepEvent : Event → Bool
  | Event.ncInit => true
  | Event.addModel _ => true
  | Event.newTransapiStatic _ => true
  | Event.fileSetPath _ => true
  | Event.featureEnable _ _ => true
  | Event.ncdsInitCall => true
  | Event.consolidateCall => true
  | Event.deviceInitCall => true
  | _ => false

/-- The full bootstrap-step sequence of a successful run, in program
order. -/
def canonicalSteps : List Event :=
  [Event.ncInit, Event.addModel certToNamePath, Event.newTransapiStatic serverYinPath,
   Event.fileSetPath datastoreXmlPath, Event.addModel certToNamePath,
   Event.featureEnable "ietf-netconf-server" "ssh",
   Event.featureEnable "ietf-netconf-server" "inbound-ssh",
   Event.ncdsInitCall, Event.consolidateCall, Event.deviceInitCall]

@[simp] lemma filter_isStepEvent_setupEvents (v : Int) :
    (setupEvents v).filter isStepEvent = [] := by
  simp [setupEvents, isStepEvent]

@[simp] lemma filter_isStepEvent_daemonEvents (d : Int) :
    (daemonEvents d).filter isStepEvent = [] := by
  unfold daemonEvents; split <;> simp [isStepEvent]

/-- Sample outcome environment in which `nc_init` fails and every other
call succeeds. -/
def ncInitFailEnv : ExtEnv := ⟨0, -1, 0, false, 0, 0, 0, 0, 0, 0, 0⟩

/-- Sample outcome environment in which `ncds_init` fails. -/
def ncdsInitFailEnv : ExtEnv := ⟨0, 0, 0, false, 0, 0, 0, 0, -1, 0, 0⟩

/-- Sample outcome environment in which `ncds_consolidate` fails. -/
def consolidateFailEnv : ExtEnv := ⟨0, 0, 0, false, 0, 0, 0, 0, 0, 1, 0⟩

/-- Sample outcome environment in which `ncds_device_init` fails. -/
def deviceInitFailEnv : ExtEnv := ⟨0, 0, 0, false, 0, 0, 0, 0, 0, 0, 1⟩

/-- C1 (amended): the executed bootstrap steps always form a prefix of
the canonical sequence (fail-fast: no retry, no re-execution, no
rollback); failure of datastore construction, datastore initialization,
consolidation, or activation logs an error and jumps to the single
cleanup point, so the trace ends with the error log followed by
`nc_close` and the run exits nonzero; failure of `nc_init`, by contrast,
logs an error and exits nonzero directly WITHOUT running `nc_close`; and
the results of `ncds_add_model`, `ncds_file_set_path` and
`ncds_feature_enable` are all discarded, so arbitrary replacement of
them changes neither the trace nor how the run ends. -/
theorem C1_bootstrap_failure_paths (d v : Int) (ext : ExtEnv) :
    (∃ rest, ((bootstrapRun d v ext).1.filter isStepEvent) ++ rest = canonicalSteps) ∧
    (¬(d = 1 ∧ ext.daemonRet ≠ 0) → ext.ncInitRet < 0 →
      (bootstrapRun d v ext).2 = MainResult.exited EXIT_FAILURE ∧
      Event.logError "libnetconf initialization failed." ∈ (bootstrapRun d v ext).1 ∧
      Event.ncClose ∉ (bootstrapRun d v ext).1) ∧
    (¬(d = 1 ∧ ext.daemonRet ≠ 0) → 0 ≤ ext.ncInitRet → ext.newTransapiNull = true →
      ∃ pre, (bootstrapRun d v ext).1 =
          pre ++ [Event.logError "Creating ietf-netconf-server datastore failed.",
                  Event.ncClose] ∧
        (bootstrapRun d v ext).2 = MainResult.exited EXIT_FAILURE) ∧
    (¬(d = 1 ∧ ext.daemonRet ≠ 0) → 0 ≤ ext.ncInitRet → ext.newTransapiNull = false →
      ext.ncdsInitRet < 0 →
      ∃ pre, (bootstrapRun d v ext).1 =
          pre ++ [Event.logError "Initiating ietf-netconf-server datastore failed.",
                  Event.ncClose] ∧
        (bootstrapRun d v ext).2 = MainResult.exited EXIT_FAILURE) ∧
    (¬(d = 1 ∧ ext.daemonRet ≠ 0) → 0 ≤ ext.ncInitRet → ext.newTransapiNull = false →
      0 ≤ ext.ncdsInitRet → ext.consolidateRet ≠ 0 →
      ∃ pre, (bootstrapRun d v ext).1 =
          pre ++ [Event.logError "Consoidating data models failed.", Event.ncClose] ∧
        (bootstrapRun d v ext).2 = MainResult.exited EXIT_FAILURE) ∧
    (¬(d = 1 ∧ ext.daemonRet ≠ 0) → 0 ≤ ext.ncInitRet → ext.newTransapiNull = false →
      0 ≤ ext.ncdsInitRet → ext.consolidateRet = 0 → ext.deviceInitRet ≠ 0 →
      ∃ pre, (bootstrapRun d v ext).1 =
          pre ++ [Event.logError "Initiating ietf-netconf-server module failed.",
                  Event.ncClose] ∧
        (bootstrapRun d v ext).2 = MainResult.exited EXIT_FAILURE) ∧
    (∀ (dr ni ndi co de am1 am2 fs f1 f2 am1' am2' fs' f1' f2' : Int) (tn : Bool),
      bootstrapRun d v (ExtEnv.mk dr ni am1 tn fs am2 f1 f2 ndi co de) =
        bootstrapRun d v (ExtEnv.mk dr ni am1' tn fs' am2' f1' f2' ndi co de)) := by
  refine ⟨?_, ?_, ?_, ?_, ?_, ?_, ?_⟩
  · rcases bootstrapRun_cases d v ext with
      ⟨-, -, heq⟩ | ⟨-, -, heq⟩ | ⟨-, -, -, heq⟩ | ⟨-, -, -, -, heq⟩ |
      ⟨-, -, -, -, -, heq⟩ | ⟨-, -, -, -, -, -, heq⟩ | ⟨-, -, -, -, -, -, heq⟩
    · exact ⟨canonicalSteps, by simp [heq, isStepEvent]⟩
    · exact ⟨[Event.addModel certToNamePath, Event.newTransapiStatic serverYinPath,
        Event.fileSetPath datastoreXmlPath, Event.addModel certToNamePath,
        Event.featureEnable "ietf-netconf-server" "ssh",
        Event.featureEnable "ietf-netconf-server" "inbound-ssh",
        Event.ncdsInitCall, Event.consolidateCall, Event.deviceInitCall],
        by simp [heq, isStepEvent, canonicalSteps]⟩
    · exact ⟨[Event.fileSetPath datastoreXmlPath, Event.addModel certToNamePath,
        Event.featureEnable "ietf-netconf-server" "ssh",
        Event.featureEnable "ietf-netconf-server" "inbound-ssh",
        Event.ncdsInitCall, Event.consolidateCall, Event.deviceInitCall],
        by simp [heq, isStepEvent, canonicalSteps]⟩
    · exact ⟨[Event.consolidateCall, Event.deviceInitCall],
        by simp [heq, reachedDatastoreEvents, isStepEvent, canonicalSteps]⟩
    · exact ⟨[Event.deviceInitCall],
        by simp [heq, reachedDatastoreEvents, isStepEvent, canonicalSteps]⟩
    · exact ⟨[], by simp [heq, reachedDatastoreEvents, isStepEvent, canonicalSteps]⟩
    · exact ⟨[], by simp [heq, reachedDatastoreEvents, isStepEvent, canonicalSteps]⟩
  · intro hd hn
    rcases bootstrapRun_cases d v ext with
      ⟨hd1, hdr, -⟩ | ⟨-, -, heq⟩ | ⟨-, h2, -, -⟩ | ⟨-, h2, -, -, -⟩ |
      ⟨-, h2, -, -, -, -⟩ | ⟨-, h2, -, -, -, -, -⟩ | ⟨-, h2, -, -, -, -, -⟩
    · exact absurd ⟨hd1, hdr⟩ hd
    · refine ⟨by simp [heq], by simp [heq], ?_⟩
      simp [heq, setupEvents]
    all_goals exact absurd hn (by omega)
  · intro hd hn h3
    rcases bootstrapRun_cases d v ext with
      ⟨hd1, hdr, -⟩ | ⟨-, h2, -⟩ | ⟨-, -, -, heq⟩ | ⟨-, -, h3', -, -⟩ |
      ⟨-, -, h3', -, -, -⟩ | ⟨-, -, h3', -, -, -, -⟩ | ⟨-, -, h3', -, -, -, -⟩
    · exact absurd ⟨hd1, hdr⟩ hd
    · exact absurd h2 (by omega)
    · exact ⟨setupEvents v ++ daemonEvents d ++
        [Event.ncInit, Event.addModel certToNamePath,
         Event.newTransapiStatic serverYinPath],
        by simp [heq], by simp [heq]⟩
    all_goals simp [h3] at h3'
  · intro hd hn h3 h4
    rcases bootstrapRun_cases d v ext with
      ⟨hd1, hdr, -⟩ | ⟨-, h2, -⟩ | ⟨-, -, h3', -⟩ | ⟨-, -, -, -, heq⟩ |
      ⟨-, -, -, h4', -, -⟩ | ⟨-, -, -, h4', -, -, -⟩ | ⟨-, -, -, h4', -, -, -⟩
    · exact absurd ⟨hd1, hdr⟩ hd
    · exact absurd h2 (by omega)
    · simp [h3] at h3'
    · exact ⟨reachedDatastoreEvents d v, by simp [heq], by simp [heq]⟩
    all_goals exact absurd h4 (by omega)
  · intro hd hn h3 h4 h5
    rcases bootstrapRun_cases d v ext with
      ⟨hd1, hdr, -⟩ | ⟨-, h2, -⟩ | ⟨-, -, h3', -⟩ | ⟨-, -, -, h4', -⟩ |
      ⟨-, -, -, -, -, heq⟩ | ⟨-, -, -, -, h5', -, -⟩ | ⟨-, -, -, -, h5', -, -⟩
    · exact absurd ⟨hd1, hdr⟩ hd
    · exact absurd h2 (by omega)
    · simp [h3] at h3'
    · exact absurd h4' (by omega)
    · exact ⟨reachedDatastoreEvents d v ++ [Event.consolidateCall],
        by simp [heq], by simp [heq]⟩
    all_goals exact absurd h5' h5
  · intro hd hn h3 h4 h5 h6
    rcases bootstrapRun_cases d v ext with
      ⟨hd1, hdr, -⟩ | ⟨-, h2, -⟩ | ⟨-, -, h3', -⟩ | ⟨-, -, -, h4', -⟩ |
      ⟨-, -, -, -, h5', -⟩ | ⟨-, -, -, -, -, -, heq⟩ | ⟨-, -, -, -, -, h6', -⟩
    · exact absurd ⟨hd1, hdr⟩ hd
    · exact absurd h2 (by omega)
    · simp [h3] at h3'
    · exact absurd h4' (by omega)
    · exact absurd h5 h5'
    · exact ⟨reachedDatastoreEvents d v ++ [Event.consolidateCall, Event.deviceInitCall],
        by simp [heq], by simp [heq]⟩
    · exact absurd h6' h6
  · intro dr ni ndi co de am1 am2 fs f1 f2 am1' am2' fs' f1' f2' tn
    rfl

/-- Witness for C1 (amended), assembled from concrete runs failing at
each bootstrap step, plus a concrete instance of the discarded-results
conjunct with differing `ncds_add_model`, `ncds_file_set_path` and
`ncds_feature_enable` returns. -/
theorem C1_bootstrap_failure_paths_witness :
    (∃ rest, ((bootstrapRun 0 0 okEnv).1.filter isStepEvent) ++ rest = canonicalSteps) ∧
    ((bootstrapRun 0 0 ncInitFailEnv).2 = MainResult.exited EXIT_FAILURE ∧
      Event.logError "libnetconf initialization failed." ∈ (bootstrapRun 0 0 ncInitFailEnv).1 ∧
      Event.ncClose ∉ (bootstrapRun 0 0 ncInitFailEnv).1) ∧
    (∃ pre, (bootstrapRun 0 0 transapiFailEnv).1 =
        pre ++ [Event.logError "Creating ietf-netconf-server datastore failed.",
                Event.ncClose] ∧
      (bootstrapRun 0 0 transapiFailEnv).2 = MainResult.exited EXIT_FAILURE) ∧
    (∃ pre, (bootstrapRun 0 0 ncdsInitFailEnv).1 =
        pre ++ [Event.logError "Initiating ietf-netconf-server datastore failed.",
                Event.ncClose] ∧
      (bootstrapRun 0 0 ncdsInitFailEnv).2 = MainResult.exited EXIT_FAILURE) ∧
    (∃ pre, (bootstrapRun 0 0 consolidateFailEnv).1 =
        pre ++ [Event.logError "Consoidating data models failed.", Event.ncClose] ∧
      (bootstrapRun 0 0 consolidateFailEnv).2 = MainResult.exited EXIT_FAILURE) ∧
    (∃ pre, (bootstrapRun 0 0 deviceInitFailEnv).1 =
        pre ++ [Event.logError "Initiating ietf-netconf-server module failed.",
                Event.ncClose] ∧
      (bootstrapRun 0 0 deviceInitFailEnv).2 = MainResult.exited EXIT_FAILURE) ∧
    bootstrapRun 0 0 (ExtEnv.mk 0 0 (-5) false 7 (-9) 3 4 0 0 0) =
      bootstrapRun 0 0 (ExtEnv.mk 0 0 1 false 2 3 4 5 0 0 0) :=
  ⟨(C1_bootstrap_failure_paths 0 0 okEnv).1,
   (C1_bootstrap_failure_paths 0 0 ncInitFailEnv).2.1 (by decide) (by decide),
   (C1_bootstrap_failure_paths 0 0 transapiFailEnv).2.2.1 (by decide) (by decide) (by decide),
   (C1_bootstrap_failure_paths 0 0 ncdsInitFailEnv).2.2.2.1 (by decide) (by decide)
     (by decide) (by decide),
   (C1_bootstrap_failure_paths 0 0 consolidateFailEnv).2.2.2.2.1 (by decide) (by decide)
     (by decide) (by decide) (by decide),
   (C1_bootstrap_failure_paths 0 0 deviceInitFailEnv).2.2.2.2.2.1 (by decide) (by decide)
     (by decide) (by decide) (by decide) (by decide),
   (C1_bootstrap_failure_paths 0 0 okEnv).2.2.2.2.2.2
     0 0 0 0 0 (-5) (-9) 7 3 4 1 3 2 4 5 false⟩

/-- Counterexample for C1 as stated: when the very first sequenced step,
`nc_init`, fails (environment `ncInitFailEnv`, daemonized run with no
flags), the process logs the error and exits nonzero, but the trace
contains NO `nc_close` call — control returns directly instead of
jumping to the single cleanup point, contradicting the claim that every
step's failure reaches the cleanup that releases library-wide state. -/
theorem C1_counterexample_ncInit_no_cleanup :
    (runMain none [] ncInitFailEnv).2 = MainResult.exited EXIT_FAILURE ∧
    Event.logError "libnetconf initialization failed." ∈ (runMain none [] ncInitFailEnv).1 ∧
    Event.ncClose ∉ (runMain none [] ncInitFailEnv).1 := by
  decide

/-- Modelled from the daemon(3) libc contract (code external to this
repository): when its `nochdir` argument is zero, `daemon` changes the
process working directory to the filesystem root "/"; otherwise the
working directory is left unchanged.  `server.c` calls `daemon(0, 0)`. -/
def daemonCwdEffect (nochdir : Int) (cwd : String) : String :=
  if nochdir = 0 then "/" else cwd

/-- Effect of one traced call on the working directory: only the
`daemon` call can change it. -/
def cwdAfterEvent (cwd : String) : Event → String
  | Event.daemonCall nochdir _ => daemonCwdEffect nochdir cwd
  | _ => cwd

/-- Working directory after a trace, starting from `cwd`. -/
def cwdAfterTrace (cwd : String) (l : List Event) : String :=
  l.foldl cwdAfterEvent cwd

/-- Predicate: the event list contains no `daemon` call. -/
def noDaemonCall (l : List Event) : Prop :=
  ∀ n c : Int, Event.daemonCall n c ∉ l

/-- Sample outcome environment in which the `daemon` call fails. -/
def daemonFailEnv : ExtEnv := ⟨1, 0, 0, false, 0, 0, 0, 0, 0, 0, 0⟩

/-- C3 (amended): with daemonization enabled and the detach succeeding,
`main` calls `daemon(0, 0)` — which changes the working directory to the
filesystem root, not leaving it unchanged — and opens syslog without
`LOG_PERROR`, so logs go to syslog only; with daemonization disabled it
never calls `daemon`, leaves the working directory unchanged, and opens
syslog with `LOG_PERROR`, so logs also reach the controlling terminal;
if the detach call fails, the run ends immediately after the error log
with a failure status, with no retry and no further calls. -/
theorem C3_daemonization_behaviour (d v : Int) (ext : ExtEnv) (cwd : String) :
    (d = 1 → ext.daemonRet = 0 →
      Event.daemonCall 0 0 ∈ (bootstrapRun d v ext).1 ∧
      Event.openlogCall "netopeer-server" LOG_PID LOG_DAEMON ∈ (bootstrapRun d v ext).1 ∧
      cwdAfterTrace cwd (bootstrapRun d v ext).1 = "/") ∧
    (d ≠ 1 →
      Event.openlogCall "netopeer-server" (LOG_PID + LOG_PERROR) LOG_DAEMON ∈
        (bootstrapRun d v ext).1 ∧
      noDaemonCall (bootstrapRun d v ext).1 ∧
      cwdAfterTrace cwd (bootstrapRun d v ext).1 = cwd) ∧
    (d = 1 → ext.daemonRet ≠ 0 →
      bootstrapRun d v ext =
        (setupEvents v ++ [Event.daemonCall 0 0, Event.logError "Going to background failed"],
         MainResult.exited EXIT_FAILURE)) := by
  refine ⟨?_, ?_, ?_⟩
  · intro hd1 hdr
    subst hd1
    rcases bootstrapRun_cases 1 v ext with
      ⟨-, hdr', -⟩ | ⟨-, -, heq⟩ | ⟨-, -, -, heq⟩ | ⟨-, -, -, -, heq⟩ |
      ⟨-, -, -, -, -, heq⟩ | ⟨-, -, -, -, -, -, heq⟩ | ⟨-, -, -, -, -, -, heq⟩
    · exact absurd hdr hdr'
    all_goals refine ⟨?_, ?_, ?_⟩ <;>
      simp [heq, reachedDatastoreEvents, cwdAfterTrace, cwdAfterEvent, daemonCwdEffect,
            setupEvents, daemonEvents]
  · intro hd1
    rcases bootstrapRun_cases d v ext with
      ⟨hd1', -, -⟩ | ⟨-, -, heq⟩ | ⟨-, -, -, heq⟩ | ⟨-, -, -, -, heq⟩ |
      ⟨-, -, -, -, -, heq⟩ | ⟨-, -, -, -, -, -, heq⟩ | ⟨-, -, -, -, -, -, heq⟩
    · exact absurd hd1' hd1
    all_goals refine ⟨?_, fun n c => ?_, ?_⟩ <;>
      simp [heq, reachedDatastoreEvents, cwdAfterTrace, cwdAfterEvent, daemonCwdEffect,
            setupEvents, daemonEvents, hd1]
  · intro hd1 hdr
    simp [bootstrapRun, hd1, hdr]

/-- Witness for C3 (amended) at concrete runs: a daemonized run, a
foreground run, and a failing detach. -/
theorem C3_daemonization_behaviour_witness :
    (Event.daemonCall 0 0 ∈ (bootstrapRun 1 0 okEnv).1 ∧
      Event.openlogCall "netopeer-server" LOG_PID LOG_DAEMON ∈ (bootstrapRun 1 0 okEnv).1 ∧
      cwdAfterTrace "/home/user" (bootstrapRun 1 0 okEnv).1 = "/") ∧
    (Event.openlogCall "netopeer-server" (LOG_PID + LOG_PERROR) LOG_DAEMON ∈
        (bootstrapRun 0 0 okEnv).1 ∧
      noDaemonCall (bootstrapRun 0 0 okEnv).1 ∧
      cwdAfterTrace "/home/user" (bootstrapRun 0 0 okEnv).1 = "/home/user") ∧
    bootstrapRun 1 0 daemonFailEnv =
      (setupEvents 0 ++ [Event.daemonCall 0 0, Event.logError "Going to background failed"],
       MainResult.exited EXIT_FAILURE) :=
  ⟨(C3_daemonization_behaviour 1 0 okEnv "/home/user").1 rfl rfl,
   (C3_daemonization_behaviour 0 0 okEnv "/home/user").2.1 (by decide),
   (C3_daemonization_behaviour 1 0 daemonFailEnv "/home/user").2.2 rfl (by decide)⟩

/-- Counterexample for C3 as stated: in the default daemonized run the
process calls `daemon(0, 0)`, and the working directory afterwards is
the filesystem root, NOT the directory "/home/user" it started in — the
working directory is not left unchanged. -/
theorem C3_counterexample_cwd_changed :
    Event.daemonCall 0 0 ∈ (runMain none [] okEnv).1 ∧
    cwdAfterTrace "/home/user" (runMain none [] okEnv).1 = "/" ∧
    ("/" : String) ≠ "/home/user" := by
  decide

end OfConfig
